import Mathlib

/-!
Verification of the OrderChad order-management core.

The definitions below are a shallow embedding of the route handlers of the
repository (src/app/api/orders/route.ts, src/app/api/orders/[id]/route.ts,
src/app/api/reviews/route.ts, src/app/api/cart/items/[id]/route.ts,
src/app/api/products/[id]/route.ts) over the Prisma data model
(prisma/schema.prisma).  Database ids (cuid strings in the schema) are
modelled as natural numbers; Prisma Float columns (price, total) are
modelled as rationals; Int columns (stock, quantity, rating) as integers.
Each handler becomes a pure function from a database state and a request to
a result together with the successor database state.  Row sets are lists in
insertion order, matching the default ordering Prisma returns and the order
in which the handlers iterate.
-/

/-- UserRole enum of prisma/schema.prisma. -/
inductive UserRole
  | CUSTOMER
  | MANAGER
  | ADMIN
deriving DecidableEq

/-- OrderStatus enum of prisma/schema.prisma. -/
inductive OrderStatus
  | PENDING
  | PROCESSING
  | SHIPPED
  | DELIVERED
  | CANCELLED
deriving DecidableEq

/-- ProductCategory enum of prisma/schema.prisma. -/
inductive ProductCategory
  | ELECTRONICS
  | CLOTHING
  | FOOD
  | BOOKS
  | OTHER
deriving DecidableEq

/-- Product model (schema.prisma).  Timestamp columns are omitted: no
modelled handler reads them. -/
@[ext]
structure Product where
  id : Nat
  name : String
  description : String
  image : Option String
  price : Rat
  stock : Int
  category : ProductCategory
deriving DecidableEq

/-- Address model (schema.prisma).  The street/city/state/postalCode/country
payload is opaque to every modelled handler, which only ever matches on id
and userId, so only those two columns are carried. -/
structure Address where
  id : Nat
  userId : Nat
deriving DecidableEq

/-- Cart model (schema.prisma): one cart per user. -/
structure Cart where
  id : Nat
  userId : Nat
deriving DecidableEq

/-- CartItem model (schema.prisma). -/
structure CartItem where
  id : Nat
  cartId : Nat
  productId : Nat
  quantity : Int
deriving DecidableEq

/-- Order model (schema.prisma).  Timestamps omitted as above. -/
structure Order where
  id : Nat
  userId : Nat
  status : OrderStatus
  total : Rat
  addressId : Nat
deriving DecidableEq

/-- OrderItem model (schema.prisma): the price column is the snapshot taken
at checkout time. -/
structure OrderItem where
  id : Nat
  orderId : Nat
  productId : Nat
  quantity : Int
  price : Rat
deriving DecidableEq

/-- Review model (schema.prisma). -/
structure Review where
  id : Nat
  userId : Nat
  productId : Nat
  rating : Int
  comment : Option String
deriving DecidableEq

/-- The persistent store: one list per table, plus a counter supplying the
fresh ids that Prisma generates with cuid(). -/
structure DB where
  products : List Product
  addresses : List Address
  carts : List Cart
  cartItems : List CartItem
  orders : List Order
  orderItems : List OrderItem
  reviews : List Review
  nextId : Nat
deriving DecidableEq

/-- The session object next-auth hands to every handler: a resolved user id
plus role.  A missing session models an unauthenticated request. -/
structure Session where
  userId : Nat
  role : UserRole
deriving DecidableEq

/-- prisma.address.findUnique where id and userId
(orders/route.ts lines 84-89). -/
def findAddress (db : DB) (aid uid : Nat) : Option Address :=
  db.addresses.find? (fun a => a.id == aid && a.userId == uid)

/-- prisma.cart.findUnique where userId (orders/route.ts lines 99-110). -/
def findCart (db : DB) (uid : Nat) : Option Cart :=
  db.carts.find? (fun c => c.userId == uid)

/-- The items of a cart, in insertion order (the include on the cart fetch). -/
def cartItemsOf (db : DB) (cartId : Nat) : List CartItem :=
  db.cartItems.filter (fun ci => ci.cartId == cartId)

/-- prisma.product.findUnique where id. -/
def findProduct (ps : List Product) (pid : Nat) : Option Product :=
  ps.find? (fun p => p.id == pid)

/-- Resolve the product relation of each cart item (the nested include of the
cart fetch).  The schema makes the relation mandatory, so a dangling
productId has no counterpart in the running system; it is mapped to none,
which the checkout handler turns into the 500 catch-all. -/
def joinLines (db : DB) : List CartItem → Option (List (CartItem × Product))
  | [] => some []
  | ci :: rest =>
    match findProduct db.products ci.productId, joinLines db rest with
    | some p, some ls => some ((ci, p) :: ls)
    | _, _ => none

/-- cart.items.reduce((sum, item) => sum + item.product.price * item.quantity, 0)
(orders/route.ts lines 120-123). -/
def totalOf (lines : List (CartItem × Product)) : Rat :=
  lines.foldl (fun sum l => sum + l.2.price * (l.1.quantity : Rat)) 0

/-- item.quantity > item.product.stock (orders/route.ts line 127). -/
def violatesStock (l : CartItem × Product) : Bool :=
  l.1.quantity > l.2.stock

/-- The OrderItems created inside the checkout transaction
(orders/route.ts lines 147-153): one per cart line, quantity copied,
price frozen from the current product price. -/
def mkOrderItems (startId oid : Nat) : List (CartItem × Product) → List OrderItem
  | [] => []
  | l :: ls => ⟨startId, oid, l.1.productId, l.1.quantity, l.2.price⟩ :: mkOrderItems (startId + 1) oid ls

/-- tx.product.update with a stock decrement for a single line
(orders/route.ts lines 166-173). -/
def decrementStock (ps : List Product) (pid : Nat) (q : Int) : List Product :=
  ps.map (fun p => if p.id == pid then { p with stock := p.stock - q } else p)

/-- The decrement loop of the checkout transaction
(orders/route.ts lines 164-174). -/
def decrementAll (ps : List Product) (lines : List (CartItem × Product)) : List Product :=
  lines.foldl (fun acc l => decrementStock acc l.1.productId l.1.quantity) ps

/-- Outcome of POST /api/orders. -/
inductive CheckoutResult
  | unauthorized
  | missingAddress
  | invalidAddress
  | emptyCart
  | insufficientStock (productId : Nat) (name : String)
  | internalError
  | created (order : Order) (items : List OrderItem)
deriving DecidableEq

/-- Whether the checkout produced the 201 branch. -/
def CheckoutResult.isCreated : CheckoutResult → Bool
  | .created _ _ => true
  | _ => false

/-- POST /api/orders (orders/route.ts lines 67-194), with its reads and its
writes split over two database states.  Every read (address lookup, cart
fetch with items and products, the stock validation loop) is served from
readDb, the state the handler observed; the transaction at lines 139-184
applies its writes to applyDb.  The handler performs all reads before the
transaction opens and the transaction re-checks nothing, so two overlapping
requests are exactly two instances whose readDb predates the other commit.
The isolated execution is createOrder below, where both states coincide. -/
def createOrderWith (readDb applyDb : DB) (sess : Option Session) (addressId : Option Nat) :
    CheckoutResult × DB :=
  match sess with
  | none => (.unauthorized, applyDb)
  | some s =>
    match addressId with
    | none => (.missingAddress, applyDb)
    | some aid =>
      match findAddress readDb aid s.userId with
      | none => (.invalidAddress, applyDb)
      | some _ =>
        match findCart readDb s.userId with
        | none => (.emptyCart, applyDb)
        | some cart =>
          let items := cartItemsOf readDb cart.id
          if items.isEmpty then (.emptyCart, applyDb)
          else
            match joinLines readDb items with
            | none => (.internalError, applyDb)
            | some lines =>
              let total := totalOf lines
              match lines.find? violatesStock with
              | some l => (.insufficientStock l.2.id l.2.name, applyDb)
              | none =>
                let order : Order := ⟨applyDb.nextId, s.userId, .PENDING, total, aid⟩
                let newItems := mkOrderItems (applyDb.nextId + 1) applyDb.nextId lines
                (.created order newItems,
                  { applyDb with
                    orders := applyDb.orders ++ [order]
                    orderItems := applyDb.orderItems ++ newItems
                    products := decrementAll applyDb.products lines
                    cartItems := applyDb.cartItems.filter (fun ci => !(ci.cartId == cart.id))
                    nextId := applyDb.nextId + 1 + lines.length })

/-- POST /api/orders run in isolation: reads and writes on one state. -/
def createOrder (db : DB) (sess : Option Session) (addressId : Option Nat) :
    CheckoutResult × DB :=
  createOrderWith db db sess addressId

/-- The validStatuses array of orders/[id]/route.ts line 7. -/
def validStatuses : List String :=
  ["PENDING", "PROCESSING", "SHIPPED", "DELIVERED", "CANCELLED"]

/-- Decode the status string of the PATCH body into the enum; none exactly
when validStatuses.includes(status) is false. -/
def statusOfString (s : String) : Option OrderStatus :=
  if s = "PENDING" then some .PENDING
  else if s = "PROCESSING" then some .PROCESSING
  else if s = "SHIPPED" then some .SHIPPED
  else if s = "DELIVERED" then some .DELIVERED
  else if s = "CANCELLED" then some .CANCELLED
  else none

/-- Outcome of PATCH /api/orders/[id]. -/
inductive OrderPatchResult
  | unauthorized
  | forbidden
  | invalidStatus
  | notFound
  | updated (o : Order)
deriving DecidableEq

/-- PATCH /api/orders/[id] (orders/[id]/route.ts lines 68-123): role gate,
enum validation against validStatuses, existence check, then an
unconditional status write with no adjacency or terminality restriction. -/
def updateOrderStatus (db : DB) (sess : Option Session) (orderId : Nat) (status : Option String) :
    OrderPatchResult × DB :=
  match sess with
  | none => (.unauthorized, db)
  | some s =>
    if s.role ≠ UserRole.MANAGER ∧ s.role ≠ UserRole.ADMIN then (.forbidden, db)
    else
      match status with
      | none => (.invalidStatus, db)
      | some str =>
        match statusOfString str with
        | none => (.invalidStatus, db)
        | some st =>
          match db.orders.find? (fun o => o.id == orderId) with
          | none => (.notFound, db)
          | some o =>
            (.updated { o with status := st },
              { db with
                orders := db.orders.map
                  (fun x => if x.id == orderId then { x with status := st } else x) })

/-- The delivered-order lookup nested inside the purchase check of
reviews/route.ts lines 42-50: the order relation of a candidate OrderItem,
tested for the calling user and status DELIVERED. -/
def orderDeliveredFor (db : DB) (oid uid : Nat) : Bool :=
  match db.orders.find? (fun o => o.id == oid) with
  | some o => o.userId == uid && decide (o.status = OrderStatus.DELIVERED)
  | none => false

/-- prisma.orderItem.findFirst of reviews/route.ts lines 42-50, reduced to
its truth value. -/
def hasPurchased (db : DB) (uid pid : Nat) : Bool :=
  (db.orderItems.find? (fun oi => oi.productId == pid && orderDeliveredFor db oi.orderId uid)).isSome

/-- Modelled from the words of the spec, section 4.4: canReview(user, product)
holds when some OrderItem references the product and its Order belongs to the
user with status DELIVERED.  Kept separate from hasPurchased so the code can
be compared against the spec predicate. -/
def canReviewSpec (db : DB) (uid pid : Nat) : Prop :=
  ∃ oi ∈ db.orderItems, oi.productId = pid ∧
    ∃ o ∈ db.orders, o.id = oi.orderId ∧ o.userId = uid ∧ o.status = OrderStatus.DELIVERED

instance canReviewSpecDecidable (db : DB) (uid pid : Nat) : Decidable (canReviewSpec db uid pid) :=
  decidable_of_iff
    (∃ oi ∈ db.orderItems, oi.productId = pid ∧
      ∃ o ∈ db.orders, o.id = oi.orderId ∧ o.userId = uid ∧ o.status = OrderStatus.DELIVERED)
    Iff.rfl

/-- Outcome of POST /api/reviews. -/
inductive ReviewResult
  | unauthorized
  | forbiddenRole
  | missingProductId
  | invalidRating
  | productNotFound
  | forbiddenNotPurchased
  | updated (r : Review)
  | created (r : Review)
deriving DecidableEq

/-- The HTTP status each ReviewResult is returned with
(reviews/route.ts lines 13, 18, 25, 29, 38, 53, 73, 86). -/
def ReviewResult.status : ReviewResult → Nat
  | .unauthorized => 401
  | .forbiddenRole => 403
  | .missingProductId => 400
  | .invalidRating => 400
  | .productNotFound => 404
  | .forbiddenNotPurchased => 403
  | .updated _ => 200
  | .created _ => 201

/-- Whether the review submission took one of the two success branches. -/
def ReviewResult.isSuccess : ReviewResult → Bool
  | .updated _ => true
  | .created _ => true
  | _ => false

/-- POST /api/reviews (reviews/route.ts lines 7-91).  The rating test mirrors
the javascript guard: !rating || rating < 1 || rating > 5, where a zero
rating is falsy. -/
def createReview (db : DB) (sess : Option Session) (productId : Option Nat)
    (rating : Int) (comment : Option String) : ReviewResult × DB :=
  match sess with
  | none => (.unauthorized, db)
  | some s =>
    if s.role ≠ UserRole.CUSTOMER then (.forbiddenRole, db)
    else
      match productId with
      | none => (.missingProductId, db)
      | some pid =>
        if rating = 0 ∨ rating < 1 ∨ 5 < rating then (.invalidRating, db)
        else
          match findProduct db.products pid with
          | none => (.productNotFound, db)
          | some _ =>
            if hasPurchased db s.userId pid = false then (.forbiddenNotPurchased, db)
            else
              match db.reviews.find? (fun r => r.userId == s.userId && r.productId == pid) with
              | some r0 =>
                (.updated { r0 with rating := rating, comment := comment },
                  { db with
                    reviews := db.reviews.map
                      (fun r => if r.id == r0.id then { r with rating := rating, comment := comment } else r) })
              | none =>
                (.created ⟨db.nextId, s.userId, pid, rating, comment⟩,
                  { db with
                    reviews := db.reviews ++ [⟨db.nextId, s.userId, pid, rating, comment⟩]
                    nextId := db.nextId + 1 })

/-- Number of reviews stored for a product. -/
def reviewCount (db : DB) (pid : Nat) : Nat :=
  (db.reviews.filter (fun r => r.productId == pid)).length

/-- Outcome of PATCH or DELETE /api/cart/items/[id]. -/
inductive CartItemResult
  | unauthorized
  | invalidQuantity
  | notFound
  | notOwner
  | internalError
  | insufficientStock
  | updated (ci : CartItem)
  | deleted
deriving DecidableEq

/-- The HTTP status each CartItemResult is returned with
(cart/items/[id]/route.ts lines 15, 23, 39, 47, 54, 67, 84, 98, 106, 114).
The ownership failure is returned with 401, the same code as a missing
session, not with 403. -/
def CartItemResult.status : CartItemResult → Nat
  | .unauthorized => 401
  | .invalidQuantity => 400
  | .notFound => 404
  | .notOwner => 401
  | .internalError => 500
  | .insufficientStock => 400
  | .updated _ => 200
  | .deleted => 200

/-- PATCH /api/cart/items/[id] (cart/items/[id]/route.ts lines 8-75).
The quantity guard mirrors !quantity || quantity < 1.  The ownership test
compares the userId of the cart relation against the session and fires
before the stock check. -/
def updateCartItem (db : DB) (sess : Option Session) (itemId : Nat) (quantity : Option Int) :
    CartItemResult × DB :=
  match sess with
  | none => (.unauthorized, db)
  | some s =>
    match quantity with
    | none => (.invalidQuantity, db)
    | some q =>
      if q < 1 then (.invalidQuantity, db)
      else
        match db.cartItems.find? (fun ci => ci.id == itemId) with
        | none => (.notFound, db)
        | some ci =>
          match db.carts.find? (fun c => c.id == ci.cartId) with
          | none => (.internalError, db)
          | some cart =>
            if cart.userId ≠ s.userId then (.notOwner, db)
            else
              match findProduct db.products ci.productId with
              | none => (.internalError, db)
              | some prod =>
                if q > prod.stock then (.insufficientStock, db)
                else
                  (.updated { ci with quantity := q },
                    { db with
                      cartItems := db.cartItems.map
                        (fun x => if x.id == itemId then { x with quantity := q } else x) })

/-- DELETE /api/cart/items/[id] (cart/items/[id]/route.ts lines 77-122);
the same 401 ownership rejection, then the row is removed. -/
def deleteCartItem (db : DB) (sess : Option Session) (itemId : Nat) :
    CartItemResult × DB :=
  match sess with
  | none => (.unauthorized, db)
  | some s =>
    match db.cartItems.find? (fun ci => ci.id == itemId) with
    | none => (.notFound, db)
    | some ci =>
      match db.carts.find? (fun c => c.id == ci.cartId) with
      | none => (.internalError, db)
      | some cart =>
        if cart.userId ≠ s.userId then (.notOwner, db)
        else
          (.deleted, { db with cartItems := db.cartItems.filter (fun x => !(x.id == itemId)) })

/-- The PUT /api/products/[id] body after JSON parsing; none marks an absent
field (undefined in the javascript). -/
structure ProductUpdate where
  name : Option String
  description : Option String
  image : Option String
  price : Option Rat
  stock : Option Int
  category : Option ProductCategory
deriving DecidableEq

/-- Absent-or-falsy test for the string fields of the PUT body. -/
def strFalsy : Option String → Bool
  | none => true
  | some s => s.isEmpty

/-- The required-field guard of products/[id]/route.ts line 87:
!name || !description || price === undefined || stock === undefined || !category. -/
def missingField (u : ProductUpdate) : Bool :=
  strFalsy u.name || strFalsy u.description || u.price.isNone || u.stock.isNone || u.category.isNone

/-- Outcome of PUT /api/products/[id]. -/
inductive ProductPutResult
  | unauthorized
  | forbidden
  | notFound
  | missingFields
  | updated (p : Product)
deriving DecidableEq

/-- PUT /api/products/[id] (products/[id]/route.ts lines 52-115): role gate,
existence check, required-field validation, then an update that writes only
the products table.  An absent image field is skipped by the update, keeping
the stored value, which is how Prisma treats undefined. -/
def updateProduct (db : DB) (sess : Option Session) (productId : Nat) (u : ProductUpdate) :
    ProductPutResult × DB :=
  match sess with
  | none => (.unauthorized, db)
  | some s =>
    if s.role ≠ UserRole.MANAGER ∧ s.role ≠ UserRole.ADMIN then (.forbidden, db)
    else
      match findProduct db.products productId with
      | none => (.notFound, db)
      | some p =>
        if missingField u then (.missingFields, db)
        else
          (.updated
            { p with
              name := u.name.getD p.name
              description := u.description.getD p.description
              image := match u.image with | some i => some i | none => p.image
              price := u.price.getD p.price
              stock := u.stock.getD p.stock
              category := u.category.getD p.category },
            { db with
              products := db.products.map
                (fun x =>
                  if x.id == productId then
                    { p with
                      name := u.name.getD p.name
                      description := u.description.getD p.description
                      image := match u.image with | some i => some i | none => p.image
                      price := u.price.getD p.price
                      stock := u.stock.getD p.stock
                      category := u.category.getD p.category }
                  else x) })

/-- A store with one product (stock 1) and one cart line demanding 5 of it:
a stock-violating checkout attempt for user 1. -/
def dbW1 : DB :=
  { products := [⟨1, "P", "d", none, 10, 1, ProductCategory.OTHER⟩]
    addresses := [⟨1, 1⟩]
    carts := [⟨1, 1⟩]
    cartItems := [⟨10, 1, 1, 5⟩]
    orders := [], orderItems := [], reviews := [], nextId := 100 }

/-- A store where user 1 can check out: product 1 has price 5 and stock 3,
the cart holds quantity 2 of it, and address 1 belongs to user 1. -/
def dbW2 : DB :=
  { products := [⟨1, "P", "d", none, 5, 3, ProductCategory.OTHER⟩]
    addresses := [⟨1, 1⟩]
    carts := [⟨1, 1⟩]
    cartItems := [⟨10, 1, 1, 2⟩]
    orders := [], orderItems := [], reviews := [], nextId := 100 }

/-- The joined cart lines of dbW2. -/
def linesW2 : List (CartItem × Product) :=
  [(⟨10, 1, 1, 2⟩, ⟨1, "P", "d", none, 5, 3, ProductCategory.OTHER⟩)]

/-- The race scenario of spec section 8: product 1 has exactly one unit in
stock, and users 1 and 2 each hold a cart line asking for that last unit. -/
def raceDb : DB :=
  { products := [⟨1, "P", "d", none, 10, 1, ProductCategory.OTHER⟩]
    addresses := [⟨1, 1⟩, ⟨2, 2⟩]
    carts := [⟨1, 1⟩, ⟨2, 2⟩]
    cartItems := [⟨10, 1, 1, 1⟩, ⟨11, 2, 1, 1⟩]
    orders := [], orderItems := [], reviews := [], nextId := 100 }

/-- A store holding a single order that has already been DELIVERED. -/
def dbC5 : DB :=
  { products := [], addresses := [], carts := [], cartItems := []
    orders := [⟨1, 1, OrderStatus.DELIVERED, 10, 1⟩]
    orderItems := [], reviews := [], nextId := 10 }

/-- A store where user 1 has a DELIVERED order containing product 2, and no
review exists yet. -/
def dbW6 : DB :=
  { products := [⟨2, "Q", "d", none, 3, 5, ProductCategory.OTHER⟩]
    addresses := [], carts := [], cartItems := []
    orders := [⟨50, 1, OrderStatus.DELIVERED, 3, 1⟩]
    orderItems := [⟨60, 50, 2, 1, 3⟩]
    reviews := [], nextId := 200 }

/-- dbW6 with an existing review by user 1 for product 2. -/
def dbW7 : DB :=
  { products := [⟨2, "Q", "d", none, 3, 5, ProductCategory.OTHER⟩]
    addresses := [], carts := [], cartItems := []
    orders := [⟨50, 1, OrderStatus.DELIVERED, 3, 1⟩]
    orderItems := [⟨60, 50, 2, 1, 3⟩]
    reviews := [⟨70, 1, 2, 4, none⟩], nextId := 200 }

/-- A store where user 1 has no cart at all and address 7 belongs to user 2. -/
def db8 : DB :=
  { products := [], addresses := [⟨7, 2⟩], carts := [], cartItems := []
    orders := [], orderItems := [], reviews := [], nextId := 10 }

/-- A store where user 1 owns address 7 but has no cart. -/
def db8b : DB :=
  { products := [], addresses := [⟨7, 1⟩], carts := [], cartItems := []
    orders := [], orderItems := [], reviews := [], nextId := 10 }

/-- A store where cart line 10 sits in the cart of user 2; user 1 will try
to mutate it. -/
def dbW9 : DB :=
  { products := [⟨1, "P", "d", none, 5, 3, ProductCategory.OTHER⟩]
    addresses := [], carts := [⟨1, 2⟩]
    cartItems := [⟨10, 1, 1, 1⟩]
    orders := [], orderItems := [], reviews := [], nextId := 20 }

/-- A store with no product 9 even though user 1 has a DELIVERED order whose
item references product id 9 (the product row is gone). -/
def dbW10 : DB :=
  { products := [], addresses := [], carts := [], cartItems := []
    orders := [⟨50, 1, OrderStatus.DELIVERED, 10, 1⟩]
    orderItems := [⟨60, 50, 9, 1, 10⟩]
    reviews := [], nextId := 300 }

/-- Total quantity the checkout transaction removes from the stock of a
given product: the sum of the quantities of the cart lines naming it. -/
def qtyFor (lines : List (CartItem × Product)) (pid : Nat) : Int :=
  ((lines.filter (fun l => l.1.productId == pid)).map (fun l => l.1.quantity)).sum

lemma qtyFor_cons (l : CartItem × Product) (ls : List (CartItem × Product)) (pid : Nat) :
    qtyFor (l :: ls) pid = (if l.1.productId == pid then l.1.quantity else 0) + qtyFor ls pid := by
  cases h : l.1.productId == pid <;> simp [qtyFor, List.filter_cons, h]

lemma find?_map_pres {α : Type} (l : List α) (f : α → α) (p : α → Bool)
    (h : ∀ x, p (f x) = p x) : (l.map f).find? p = (l.find? p).map f := by
  induction l with
  | nil => rfl
  | cons a t ih =>
    cases hpa : p a
    · simp [List.find?_cons, h a, hpa, ih]
    · simp [List.find?_cons, h a, hpa]

lemma joinLines_mem {db : DB} :
    ∀ {items : List CartItem} {lines : List (CartItem × Product)},
      joinLines db items = some lines →
      ∀ l ∈ lines, findProduct db.products l.1.productId = some l.2 := by
  intro items
  induction items with
  | nil =>
    intro lines h l hl
    simp [joinLines] at h
    subst h
    cases hl
  | cons ci rest ih =>
    intro lines h l hl
    cases hfp : findProduct db.products ci.productId with
    | none => simp [joinLines, hfp] at h
    | some p =>
      cases hjr : joinLines db rest with
      | none => simp [joinLines, hfp, hjr] at h
      | some ls =>
        simp only [joinLines, hfp, hjr, Option.some.injEq] at h
        subst h
        rw [List.mem_cons] at hl
        rcases hl with rfl | hl
        · exact hfp
        · exact ih hjr l hl

lemma decrementAll_eq_map (lines : List (CartItem × Product)) :
    ∀ ps : List Product,
      decrementAll ps lines = ps.map (fun p => { p with stock := p.stock - qtyFor lines p.id }) := by
  induction lines with
  | nil =>
    intro ps
    have hfun : (fun p : Product => { p with stock := p.stock - qtyFor [] p.id }) = fun p => p := by
      funext p
      simp [qtyFor]
    simp [decrementAll, hfun]
  | cons l ls ih =>
    intro ps
    have hstep : decrementAll ps (l :: ls) = decrementAll (decrementStock ps l.1.productId l.1.quantity) ls := rfl
    rw [hstep, ih, decrementStock, List.map_map]
    apply List.map_congr_left
    intro p _
    by_cases h : p.id = l.1.productId
    · have hb : (p.id == l.1.productId) = true := beq_iff_eq.mpr h
      have hb2 : (l.1.productId == p.id) = true := beq_iff_eq.mpr h.symm
      apply Product.ext <;> simp [h, hb, hb2, qtyFor_cons]
      omega
    · have hb : (p.id == l.1.productId) = false := beq_eq_false_iff_ne.mpr h
      have hb2 : (l.1.productId == p.id) = false := beq_eq_false_iff_ne.mpr (fun e => h e.symm)
      apply Product.ext <;> simp [h, hb, hb2, qtyFor_cons]

lemma foldl_add_total (lines : List (CartItem × Product)) :
    ∀ a : Rat,
      lines.foldl (fun sum l => sum + l.2.price * (l.1.quantity : Rat)) a
        = a + (lines.map (fun l => l.2.price * (l.1.quantity : Rat))).sum := by
  induction lines with
  | nil => intro a; simp
  | cons l ls ih => intro a; simp [ih, add_assoc]

lemma totalOf_eq_sum (lines : List (CartItem × Product)) :
    totalOf lines = (lines.map (fun l => l.2.price * (l.1.quantity : Rat))).sum := by
  rw [totalOf, foldl_add_total, zero_add]

lemma mkOrderItems_proj (lines : List (CartItem × Product)) :
    ∀ sid oid : Nat,
      (mkOrderItems sid oid lines).map (fun oi => (oi.productId, oi.quantity, oi.price))
        = lines.map (fun l => (l.1.productId, l.1.quantity, l.2.price)) := by
  induction lines with
  | nil => intro sid oid; rfl
  | cons l ls ih => intro sid oid; simp [mkOrderItems, ih]

lemma filter_eq_single_of_nodup :
    ∀ (lines : List (CartItem × Product)),
      (lines.map (fun l => l.1.productId)).Nodup →
      ∀ l ∈ lines, lines.filter (fun x => x.1.productId == l.1.productId) = [l] := by
  intro lines
  induction lines with
  | nil => intro _ l hl; cases hl
  | cons a t ih =>
    intro hnd l hl
    rw [List.map_cons, List.nodup_cons] at hnd
    obtain ⟨ha, hnd'⟩ := hnd
    rw [List.mem_cons] at hl
    rcases hl with hl | hl
    · subst hl
      have hcond : (l.1.productId == l.1.productId) = true := by simp
      have hrest : t.filter (fun x => x.1.productId == l.1.productId) = [] := by
        rw [List.filter_eq_nil_iff]
        intro x hx hpx
        exact ha (List.mem_map.mpr ⟨x, hx, by simpa using hpx.symm⟩)
      simp [List.filter_cons, hcond, hrest]
    · have hcond : (a.1.productId == l.1.productId) = false := by
        by_contra hc
        have : (a.1.productId == l.1.productId) = true := by
          cases h : (a.1.productId == l.1.productId)
          · exact absurd h hc
          · rfl
        have heq : a.1.productId = l.1.productId := by simpa using this
        exact ha (List.mem_map.mpr ⟨l, hl, heq.symm⟩)
      simp only [List.filter_cons, hcond, Bool.false_eq_true, if_neg, ite_false]
      exact ih hnd' l hl

lemma qtyFor_eq_of_nodup (lines : List (CartItem × Product))
    (hnd : (lines.map (fun l => l.1.productId)).Nodup)
    (l : CartItem × Product) (hl : l ∈ lines) :
    qtyFor lines l.1.productId = l.1.quantity := by
  rw [qtyFor, filter_eq_single_of_nodup lines hnd l hl]
  simp

lemma length_filter_map_inv {α : Type} (l : List α) (f : α → α) (p : α → Bool)
    (hp : ∀ r, p (f r) = p r) : ((l.map f).filter p).length = (l.filter p).length := by
  induction l with
  | nil => rfl
  | cons a t ih =>
    cases hpa : p a
    · simp [List.filter_cons, hp a, hpa, ih]
    · simp [List.filter_cons, hp a, hpa, ih]

lemma orderDeliveredFor_iff (db : DB) (hnd : (db.orders.map Order.id).Nodup) (oid uid : Nat) :
    orderDeliveredFor db oid uid = true
      ↔ ∃ o ∈ db.orders, o.id = oid ∧ o.userId = uid ∧ o.status = OrderStatus.DELIVERED := by
  unfold orderDeliveredFor
  cases hf : db.orders.find? (fun o => o.id == oid) with
  | none =>
    simp only [Bool.false_eq_true, false_iff]
    rintro ⟨o, ho, h1, _, _⟩
    have := List.find?_eq_none.mp hf o ho
    simp [h1] at this
  | some o0 =>
    have hmem := List.mem_of_find?_eq_some hf
    have hpred : o0.id = oid := by simpa using List.find?_some hf
    constructor
    · intro h
      simp only [Bool.and_eq_true, beq_iff_eq, decide_eq_true_eq] at h
      exact ⟨o0, hmem, hpred, h.1, h.2⟩
    · rintro ⟨o, ho, h1, h2, h3⟩
      have heq : o = o0 := List.inj_on_of_nodup_map hnd ho hmem (by rw [h1, hpred])
      subst heq
      simp [h2, h3]

lemma hasPurchased_iff (db : DB) (uid pid : Nat) (hnd : (db.orders.map Order.id).Nodup) :
    hasPurchased db uid pid = true ↔ canReviewSpec db uid pid := by
  unfold hasPurchased canReviewSpec
  rw [List.find?_isSome]
  constructor
  · rintro ⟨oi, hoi, hp⟩
    simp only [Bool.and_eq_true, beq_iff_eq] at hp
    exact ⟨oi, hoi, hp.1, (orderDeliveredFor_iff db hnd _ _).mp hp.2⟩
  · rintro ⟨oi, hoi, h1, hex⟩
    exact ⟨oi, hoi, by simp [h1, (orderDeliveredFor_iff db hnd _ _).mpr hex]⟩

lemma isEmpty_false_of_ne_nil {α : Type} {l : List α} (h : l ≠ []) : l.isEmpty = false := by
  cases hI : l with
  | nil => exact absurd hI h
  | cons x xs => rfl

lemma createOrderWith_not_created (readDb applyDb : DB) (sess : Option Session) (aid : Option Nat) :
    (createOrderWith readDb applyDb sess aid).1.isCreated = true
      ∨ (createOrderWith readDb applyDb sess aid).2 = applyDb := by
  rcases sess with _ | s
  · right; rfl
  rcases aid with _ | a
  · right; rfl
  cases hA : findAddress readDb a s.userId with
  | none => right; simp [createOrderWith, hA]
  | some adr =>
    cases hC : findCart readDb s.userId with
    | none => right; simp [createOrderWith, hA, hC]
    | some cart =>
      cases hI : cartItemsOf readDb cart.id with
      | nil => right; simp [createOrderWith, hA, hC, hI]
      | cons x xs =>
        cases hJ : joinLines readDb (x :: xs) with
        | none => right; simp [createOrderWith, hA, hC, hI, hJ]
        | some lines =>
          cases hF : lines.find? violatesStock with
          | some l => right; simp [createOrderWith, hA, hC, hI, hJ, hF]
          | none => left; simp [createOrderWith, hA, hC, hI, hJ, hF, CheckoutResult.isCreated]

/-- C1: checkout is all-or-nothing.  Part one: whenever the checkout does not
reach the created branch (unauthenticated, missing or foreign address, empty
cart, dangling product, or a stock violation), the store is returned exactly
as it was: no Order, no OrderItem, no stock decrement, no cart-clear.  Part
two: when the address is owned and the cart is non-empty but some line
overdraws stock, the first violating line is reported as the
insufficient-stock error naming that product by id and name. -/
theorem checkout_all_or_nothing (db : DB) (sess : Option Session) (aid : Option Nat) :
    ((createOrder db sess aid).1.isCreated = false → (createOrder db sess aid).2 = db)
    ∧ (∀ (s : Session) (a : Nat) (cart : Cart)
        (lines : List (CartItem × Product)) (l : CartItem × Product),
        sess = some s → aid = some a →
        (findAddress db a s.userId).isSome = true →
        findCart db s.userId = some cart →
        joinLines db (cartItemsOf db cart.id) = some lines →
        lines.find? violatesStock = some l →
        (createOrder db sess aid).1 = CheckoutResult.insufficientStock l.2.id l.2.name
          ∧ (createOrder db sess aid).2 = db) := by
  constructor
  · intro hnc
    rcases createOrderWith_not_created db db sess aid with h | h
    · rw [createOrder] at hnc
      rw [h] at hnc
      cases hnc
    · exact h
  · intro s a cart lines l hs ha hAddr hCart hJoin hFind
    subst hs
    subst ha
    obtain ⟨adr, hAdr⟩ := Option.isSome_iff_exists.mp hAddr
    have hlz : lines ≠ [] := by
      intro h0
      subst h0
      simp at hFind
    have hne : cartItemsOf db cart.id ≠ [] := by
      intro h0
      rw [h0] at hJoin
      simp only [joinLines, Option.some.injEq] at hJoin
      exact hlz hJoin.symm
    have hEmpF : (cartItemsOf db cart.id).isEmpty = false := isEmpty_false_of_ne_nil hne
    constructor
    · unfold createOrder createOrderWith
      simp [hAdr, hCart, hEmpF, hJoin, hFind]
    · unfold createOrder createOrderWith
      simp [hAdr, hCart, hEmpF, hJoin, hFind]

/-- C1 witness: in dbW1 the only cart line demands 5 units of product 1,
which has stock 1, so the checkout reports the insufficient-stock error for
product 1 and leaves the store untouched. -/
theorem checkout_all_or_nothing_witness :
    ((createOrder dbW1 (some ⟨1, UserRole.CUSTOMER⟩) (some 1)).1.isCreated = false →
      (createOrder dbW1 (some ⟨1, UserRole.CUSTOMER⟩) (some 1)).2 = dbW1)
    ∧ (createOrder dbW1 (some ⟨1, UserRole.CUSTOMER⟩) (some 1)).1
        = CheckoutResult.insufficientStock 1 "P"
    ∧ (createOrder dbW1 (some ⟨1, UserRole.CUSTOMER⟩) (some 1)).2 = dbW1 := by
  have h := checkout_all_or_nothing dbW1 (some ⟨1, UserRole.CUSTOMER⟩) (some 1)
  have h2 := h.2 ⟨1, UserRole.CUSTOMER⟩ 1 ⟨1, 1⟩
    [(⟨10, 1, 1, 5⟩, ⟨1, "P", "d", none, 10, 1, ProductCategory.OTHER⟩)]
    (⟨10, 1, 1, 5⟩, ⟨1, "P", "d", none, 10, 1, ProductCategory.OTHER⟩)
    rfl rfl (by decide) (by decide) (by decide) (by decide)
  exact ⟨h.1, h2.1, h2.2⟩

/-- C2: successful checkout postcondition.  With a session, an owned
address, a non-empty cart whose lines all resolve a product and respect
current stock, the checkout creates exactly one PENDING order whose total
is the sum of quantity times current price over the lines, one OrderItem
per line carrying the snapshot of the current product price, decrements the
stock of each referenced product by the quantity of its line, deletes every
CartItem of the cart of the caller, leaves the other tables alone, and
returns the created order with its items. -/
theorem checkout_success_postcondition (db : DB) (s : Session) (a : Nat) (adr : Address)
    (cart : Cart) (lines : List (CartItem × Product))
    (hAddr : findAddress db a s.userId = some adr)
    (hCart : findCart db s.userId = some cart)
    (hItems : cartItemsOf db cart.id ≠ [])
    (hJoin : joinLines db (cartItemsOf db cart.id) = some lines)
    (hStock : ∀ l ∈ lines, l.1.quantity ≤ l.2.stock) :
    (createOrder db (some s) (some a)).1
        = CheckoutResult.created ⟨db.nextId, s.userId, OrderStatus.PENDING, totalOf lines, a⟩
            (mkOrderItems (db.nextId + 1) db.nextId lines)
    ∧ totalOf lines = (lines.map (fun l => l.2.price * (l.1.quantity : Rat))).sum
    ∧ (createOrder db (some s) (some a)).2.orders
        = db.orders ++ [⟨db.nextId, s.userId, OrderStatus.PENDING, totalOf lines, a⟩]
    ∧ (createOrder db (some s) (some a)).2.orderItems
        = db.orderItems ++ mkOrderItems (db.nextId + 1) db.nextId lines
    ∧ (mkOrderItems (db.nextId + 1) db.nextId lines).map (fun oi => (oi.productId, oi.quantity, oi.price))
        = lines.map (fun l => (l.1.productId, l.1.quantity, l.2.price))
    ∧ (createOrder db (some s) (some a)).2.products
        = db.products.map (fun p => { p with stock := p.stock - qtyFor lines p.id })
    ∧ ((lines.map (fun l => l.1.productId)).Nodup →
        ∀ l ∈ lines,
          findProduct (createOrder db (some s) (some a)).2.products l.1.productId
            = some { l.2 with stock := l.2.stock - l.1.quantity })
    ∧ (createOrder db (some s) (some a)).2.cartItems
        = db.cartItems.filter (fun ci => !(ci.cartId == cart.id))
    ∧ (∀ ci ∈ (createOrder db (some s) (some a)).2.cartItems, ci.cartId ≠ cart.id)
    ∧ (createOrder db (some s) (some a)).2.addresses = db.addresses
    ∧ (createOrder db (some s) (some a)).2.carts = db.carts
    ∧ (createOrder db (some s) (some a)).2.reviews = db.reviews := by
  have hEmpF : (cartItemsOf db cart.id).isEmpty = false := isEmpty_false_of_ne_nil hItems
  have hNoViol : lines.find? violatesStock = none := by
    rw [List.find?_eq_none]
    intro x hx
    have hle := hStock x hx
    simp only [violatesStock, decide_eq_true_eq]
    omega
  have hRes : createOrder db (some s) (some a)
      = (CheckoutResult.created ⟨db.nextId, s.userId, OrderStatus.PENDING, totalOf lines, a⟩
            (mkOrderItems (db.nextId + 1) db.nextId lines),
          { db with
            orders := db.orders ++ [⟨db.nextId, s.userId, OrderStatus.PENDING, totalOf lines, a⟩]
            orderItems := db.orderItems ++ mkOrderItems (db.nextId + 1) db.nextId lines
            products := decrementAll db.products lines
            cartItems := db.cartItems.filter (fun ci => !(ci.cartId == cart.id))
            nextId := db.nextId + 1 + lines.length }) := by
    unfold createOrder createOrderWith
    simp [hAddr, hCart, hEmpF, hJoin, hNoViol]
  refine ⟨?_, totalOf_eq_sum lines, ?_, ?_, mkOrderItems_proj lines _ _, ?_, ?_, ?_, ?_, ?_, ?_, ?_⟩
  · rw [hRes]
  · rw [hRes]
  · rw [hRes]
  · rw [hRes]
    exact decrementAll_eq_map lines db.products
  · intro hnd l hl
    rw [hRes]
    show findProduct (decrementAll db.products lines) l.1.productId = _
    rw [decrementAll_eq_map]
    have hfp := joinLines_mem hJoin l hl
    have hid : l.2.id = l.1.productId := by
      have := List.find?_some hfp
      simpa using this
    unfold findProduct at hfp ⊢
    rw [find?_map_pres db.products
        (fun p => { p with stock := p.stock - qtyFor lines p.id })
        (fun p => p.id == l.1.productId) (fun p => rfl), hfp]
    simp [hid, qtyFor_eq_of_nodup lines hnd l hl]
  · rw [hRes]
  · intro ci hci
    rw [hRes] at hci
    simp only [List.mem_filter, Bool.not_eq_eq_eq_not, Bool.not_true, beq_eq_false_iff_ne] at hci
    exact hci.2
  · rw [hRes]
  · rw [hRes]
  · rw [hRes]

/-- C2 witness: in dbW2, user 1 checks out quantity 2 of product 1 at price
5 against address 1; the order is created with total 10, the stock drops
from 3 to 1, and the cart is emptied. -/
theorem checkout_success_postcondition_witness :
    (createOrder dbW2 (some ⟨1, UserRole.CUSTOMER⟩) (some 1)).1
        = CheckoutResult.created ⟨dbW2.nextId, 1, OrderStatus.PENDING, totalOf linesW2, 1⟩
            (mkOrderItems (dbW2.nextId + 1) dbW2.nextId linesW2)
    ∧ (createOrder dbW2 (some ⟨1, UserRole.CUSTOMER⟩) (some 1)).2.orders
        = dbW2.orders ++ [⟨dbW2.nextId, 1, OrderStatus.PENDING, totalOf linesW2, 1⟩]
    ∧ (createOrder dbW2 (some ⟨1, UserRole.CUSTOMER⟩) (some 1)).2.products
        = dbW2.products.map (fun p => { p with stock := p.stock - qtyFor linesW2 p.id })
    ∧ (createOrder dbW2 (some ⟨1, UserRole.CUSTOMER⟩) (some 1)).2.cartItems
        = dbW2.cartItems.filter (fun ci => !(ci.cartId == 1)) := by
  have h := checkout_success_postcondition dbW2 ⟨1, UserRole.CUSTOMER⟩ 1 ⟨1, 1⟩ ⟨1, 1⟩ linesW2
    rfl rfl (by decide) (by decide) (by decide)
  exact ⟨h.1, h.2.2.1, h.2.2.2.2.2.1, h.2.2.2.2.2.2.2.1⟩

/-- C3: evaluation of the interleaving the handler permits.  Both checkouts
read raceDb (the cart fetch and the stock validation run before the
transaction opens, so both validate quantity 1 against stock 1 and pass);
the commit of user 2 then applies to the state already committed by user 1.
Both requests succeed and the stock of product 1 ends at minus one, in
violation of the stock invariant the spec demands even under concurrency. -/
theorem stock_race_goes_negative :
    (createOrderWith raceDb raceDb (some ⟨1, UserRole.CUSTOMER⟩) (some 1)).1.isCreated = true
    ∧ (createOrderWith raceDb
          (createOrderWith raceDb raceDb (some ⟨1, UserRole.CUSTOMER⟩) (some 1)).2
          (some ⟨2, UserRole.CUSTOMER⟩) (some 2)).1.isCreated = true
    ∧ (findProduct
          (createOrderWith raceDb
            (createOrderWith raceDb raceDb (some ⟨1, UserRole.CUSTOMER⟩) (some 1)).2
            (some ⟨2, UserRole.CUSTOMER⟩) (some 2)).2.products 1).map Product.stock
        = some (-1) := by decide

/-- C4: frame property of PUT /api/products/[id].  Whatever the session,
target id and body, the product update never touches the orderItems or the
orders tables, so every stored OrderItem, in particular its price snapshot,
is exactly as it was when the order was created. -/
theorem product_update_preserves_order_items (db : DB) (sess : Option Session)
    (pid : Nat) (u : ProductUpdate) :
    (updateProduct db sess pid u).2.orderItems = db.orderItems
    ∧ (updateProduct db sess pid u).2.orders = db.orders := by
  unfold updateProduct
  repeat' split
  all_goals exact ⟨rfl, rfl⟩

/-- C5 counterexample: dbC5 holds order 1 with status DELIVERED; a manager
PATCH with body PENDING succeeds and moves the order back to PENDING, so
DELIVERED is not terminal in the code. -/
theorem order_status_terminal_cex :
    (dbC5.orders.find? (fun o => o.id == 1)).map Order.status = some OrderStatus.DELIVERED
    ∧ ((updateOrderStatus dbC5 (some ⟨5, UserRole.MANAGER⟩) 1 (some "PENDING")).2.orders.find?
        (fun o => o.id == 1)).map Order.status = some OrderStatus.PENDING
    ∧ (updateOrderStatus dbC5 (some ⟨5, UserRole.MANAGER⟩) 1 (some "PENDING")).1
        = OrderPatchResult.updated ⟨1, 1, OrderStatus.PENDING, 10, 1⟩ := by decide

/-- C5 amended: the status PATCH enforces no terminality or adjacency at
all.  For any manager or admin session, any existing order regardless of
its current status (DELIVERED and CANCELLED included), and any recognized
status string, the handler succeeds and overwrites the status. -/
theorem order_patch_any_status (db : DB) (s : Session) (oid : Nat) (str : String)
    (st : OrderStatus) (o : Order)
    (hrole : s.role = UserRole.MANAGER ∨ s.role = UserRole.ADMIN)
    (hst : statusOfString str = some st)
    (hord : db.orders.find? (fun x => x.id == oid) = some o) :
    (updateOrderStatus db (some s) oid (some str)).1
        = OrderPatchResult.updated { o with status := st }
    ∧ (updateOrderStatus db (some s) oid (some str)).2.orders
        = db.orders.map (fun x => if x.id == oid then { x with status := st } else x) := by
  have hr : ¬(s.role ≠ UserRole.MANAGER ∧ s.role ≠ UserRole.ADMIN) := by
    rcases hrole with h | h <;> simp [h]
  unfold updateOrderStatus
  simp [hr, hst, hord]

/-- C5 witness: an admin moves the DELIVERED order 1 of dbC5 to PROCESSING. -/
theorem order_patch_any_status_witness :
    (updateOrderStatus dbC5 (some ⟨5, UserRole.ADMIN⟩) 1 (some "PROCESSING")).1
        = OrderPatchResult.updated ⟨1, 1, OrderStatus.PROCESSING, 10, 1⟩
    ∧ (updateOrderStatus dbC5 (some ⟨5, UserRole.ADMIN⟩) 1 (some "PROCESSING")).2.orders
        = dbC5.orders.map (fun x => if x.id == 1 then { x with status := OrderStatus.PROCESSING } else x) := by
  have h := order_patch_any_status dbC5 ⟨5, UserRole.ADMIN⟩ 1 "PROCESSING" OrderStatus.PROCESSING
      ⟨1, 1, OrderStatus.DELIVERED, 10, 1⟩ (Or.inr rfl) (by decide) (by decide)
  exact ⟨h.1, h.2⟩

/-- C6: review gating.  For a CUSTOMER session and an existing product, a
submission with rating in one..five succeeds exactly when some OrderItem
references the product inside a DELIVERED order of the caller; without such
an order the submission is rejected 403 and no review row changes; a rating
outside the range is rejected as the 400 invalid-rating error. -/
theorem review_gating (db : DB) (s : Session) (pid : Nat) (rating : Int)
    (comment : Option String) (p : Product)
    (hrole : s.role = UserRole.CUSTOMER)
    (hprod : findProduct db.products pid = some p)
    (hnodup : (db.orders.map Order.id).Nodup) :
    (1 ≤ rating → rating ≤ 5 →
      (((createReview db (some s) (some pid) rating comment).1.isSuccess = true)
          ↔ canReviewSpec db s.userId pid)
      ∧ (¬ canReviewSpec db s.userId pid →
          (createReview db (some s) (some pid) rating comment).1
              = ReviewResult.forbiddenNotPurchased
          ∧ (createReview db (some s) (some pid) rating comment).1.status = 403
          ∧ (createReview db (some s) (some pid) rating comment).2 = db))
    ∧ ((rating < 1 ∨ 5 < rating) →
        (createReview db (some s) (some pid) rating comment).1 = ReviewResult.invalidRating
        ∧ (createReview db (some s) (some pid) rating comment).1.status = 400
        ∧ (createReview db (some s) (some pid) rating comment).2 = db) := by
  constructor
  · intro h1 h5
    have hcond : ¬(rating = 0 ∨ rating < 1 ∨ 5 < rating) := by omega
    cases hp : hasPurchased db s.userId pid with
    | false =>
      have hcr : ¬ canReviewSpec db s.userId pid := by
        intro hc
        have := (hasPurchased_iff db s.userId pid hnodup).mpr hc
        rw [hp] at this
        cases this
      have hres : createReview db (some s) (some pid) rating comment
          = (ReviewResult.forbiddenNotPurchased, db) := by
        unfold createReview
        simp [hrole, hcond, hprod, hp]
      refine ⟨?_, fun _ => ⟨by rw [hres], by rw [hres]; rfl, by rw [hres]⟩⟩
      rw [hres]
      constructor
      · intro hh
        simp [ReviewResult.isSuccess] at hh
      · intro hc
        exact absurd hc hcr
    | true =>
      have hcr : canReviewSpec db s.userId pid :=
        (hasPurchased_iff db s.userId pid hnodup).mp hp
      refine ⟨?_, fun hc => absurd hcr hc⟩
      cases hex : db.reviews.find? (fun r => r.userId == s.userId && r.productId == pid) with
      | some r0 =>
        have hres : (createReview db (some s) (some pid) rating comment).1
            = ReviewResult.updated { r0 with rating := rating, comment := comment } := by
          unfold createReview
          simp [hrole, hcond, hprod, hp, hex]
        rw [hres]
        simp [ReviewResult.isSuccess, hcr]
      | none =>
        have hres : (createReview db (some s) (some pid) rating comment).1
            = ReviewResult.created ⟨db.nextId, s.userId, pid, rating, comment⟩ := by
          unfold createReview
          simp [hrole, hcond, hprod, hp, hex]
        rw [hres]
        simp [ReviewResult.isSuccess, hcr]
  · intro hout
    have hcond : rating = 0 ∨ rating < 1 ∨ 5 < rating := by omega
    have hres : createReview db (some s) (some pid) rating comment
        = (ReviewResult.invalidRating, db) := by
      unfold createReview
      simp [hrole, hcond]
    exact ⟨by rw [hres], by rw [hres]; rfl, by rw [hres]⟩

/-- C6 witness: in dbW6 user 1 (DELIVERED order for product 2) succeeds with
rating 5; user 3 (no order) is rejected 403 with the store unchanged; user 1
with rating 6 is rejected as invalid rating. -/
theorem review_gating_witness :
    (createReview dbW6 (some ⟨1, UserRole.CUSTOMER⟩) (some 2) 5 none).1.isSuccess = true
    ∧ (createReview dbW6 (some ⟨3, UserRole.CUSTOMER⟩) (some 2) 5 none).1
        = ReviewResult.forbiddenNotPurchased
    ∧ (createReview dbW6 (some ⟨3, UserRole.CUSTOMER⟩) (some 2) 5 none).2 = dbW6
    ∧ (createReview dbW6 (some ⟨1, UserRole.CUSTOMER⟩) (some 2) 6 none).1
        = ReviewResult.invalidRating := by
  have h1 := review_gating dbW6 ⟨1, UserRole.CUSTOMER⟩ 2 5 none
      ⟨2, "Q", "d", none, 3, 5, ProductCategory.OTHER⟩ rfl (by decide) (by decide)
  have h3 := review_gating dbW6 ⟨3, UserRole.CUSTOMER⟩ 2 5 none
      ⟨2, "Q", "d", none, 3, 5, ProductCategory.OTHER⟩ rfl (by decide) (by decide)
  have h6 := review_gating dbW6 ⟨1, UserRole.CUSTOMER⟩ 2 6 none
      ⟨2, "Q", "d", none, 3, 5, ProductCategory.OTHER⟩ rfl (by decide) (by decide)
  refine ⟨?_, ?_, ?_, ?_⟩
  · exact ((h1.1 (by decide) (by decide)).1).mpr (by decide)
  · exact ((h3.1 (by decide) (by decide)).2 (by decide)).1
  · exact ((h3.1 (by decide) (by decide)).2 (by decide)).2.2
  · exact (h6.2 (by decide)).1

/-- C7: a second eligible submission for the same user and product updates
the existing review row in place: the result is the updated row, the
reviews table is the pointwise rewrite of the old one, its length is
unchanged, and the review count of the product does not increase. -/
theorem review_update_in_place (db : DB) (s : Session) (pid : Nat) (rating : Int)
    (comment : Option String) (p : Product) (r0 : Review)
    (hrole : s.role = UserRole.CUSTOMER)
    (hprod : findProduct db.products pid = some p)
    (h1 : 1 ≤ rating) (h5 : rating ≤ 5)
    (hpur : hasPurchased db s.userId pid = true)
    (hex : db.reviews.find? (fun r => r.userId == s.userId && r.productId == pid) = some r0) :
    (createReview db (some s) (some pid) rating comment).1
        = ReviewResult.updated { r0 with rating := rating, comment := comment }
    ∧ (createReview db (some s) (some pid) rating comment).2.reviews
        = db.reviews.map
            (fun r => if r.id == r0.id then { r with rating := rating, comment := comment } else r)
    ∧ (createReview db (some s) (some pid) rating comment).2.reviews.length = db.reviews.length
    ∧ reviewCount (createReview db (some s) (some pid) rating comment).2 pid = reviewCount db pid := by
  have hcond : ¬(rating = 0 ∨ rating < 1 ∨ 5 < rating) := by omega
  have hres : createReview db (some s) (some pid) rating comment
      = (ReviewResult.updated { r0 with rating := rating, comment := comment },
          { db with
            reviews := db.reviews.map
              (fun r => if r.id == r0.id then { r with rating := rating, comment := comment } else r) }) := by
    unfold createReview
    simp [hrole, hcond, hprod, hpur, hex]
  refine ⟨by rw [hres], by rw [hres], ?_, ?_⟩
  · rw [hres]
    simp
  · rw [hres]
    unfold reviewCount
    refine length_filter_map_inv db.reviews _ _ ?_
    intro r
    dsimp only
    split <;> rfl

/-- C7 witness: in dbW7, user 1 already reviewed product 2 with rating 4;
the second submission with rating 5 rewrites that row and the review count
of product 2 stays 1. -/
theorem review_update_in_place_witness :
    (createReview dbW7 (some ⟨1, UserRole.CUSTOMER⟩) (some 2) 5 (some "ok")).1
        = ReviewResult.updated ⟨70, 1, 2, 5, some "ok"⟩
    ∧ (createReview dbW7 (some ⟨1, UserRole.CUSTOMER⟩) (some 2) 5 (some "ok")).2.reviews.length
        = dbW7.reviews.length
    ∧ reviewCount (createReview dbW7 (some ⟨1, UserRole.CUSTOMER⟩) (some 2) 5 (some "ok")).2 2
        = reviewCount dbW7 2 := by
  have h := review_update_in_place dbW7 ⟨1, UserRole.CUSTOMER⟩ 2 5 (some "ok")
      ⟨2, "Q", "d", none, 3, 5, ProductCategory.OTHER⟩ ⟨70, 1, 2, 4, none⟩
      rfl (by decide) (by decide) (by decide) (by decide) (by decide)
  exact ⟨h.1, h.2.2.1, h.2.2.2⟩

/-- C8 counterexample: in db8 user 1 has no cart at all, yet the checkout
with an address owned by user 2 answers invalid-address, not empty-cart:
the address check runs first, refuting the claimed check order. -/
theorem checkout_empty_cart_order_cex :
    findCart db8 1 = none
    ∧ (createOrder db8 (some ⟨1, UserRole.CUSTOMER⟩) (some 7)).1 = CheckoutResult.invalidAddress
    ∧ (createOrder db8 (some ⟨1, UserRole.CUSTOMER⟩) (some 7)).1 ≠ CheckoutResult.emptyCart := by
  decide

/-- C8 amended: the address-ownership check precedes the empty-cart check.
A foreign or unknown address yields invalid-address whatever the cart
state; the empty-cart rejection is reached only once the address is owned,
whether the cart is missing or merely has no lines. -/
theorem checkout_address_before_cart (db : DB) (s : Session) (a : Nat) :
    (findAddress db a s.userId = none →
      (createOrder db (some s) (some a)).1 = CheckoutResult.invalidAddress)
    ∧ (∀ adr, findAddress db a s.userId = some adr →
        (findCart db s.userId = none
          ∨ ∃ cart, findCart db s.userId = some cart ∧ cartItemsOf db cart.id = []) →
        (createOrder db (some s) (some a)).1 = CheckoutResult.emptyCart) := by
  constructor
  · intro h
    unfold createOrder createOrderWith
    simp [h]
  · intro adr hAdr hc
    unfold createOrder createOrderWith
    rcases hc with hc | ⟨cart, hcart, hempty⟩
    · simp [hAdr, hc]
    · simp [hAdr, hcart, hempty]

/-- C8 witness: user 1 against db8 (foreign address, no cart) gets
invalid-address; user 1 against db8b (owned address, no cart) gets
empty-cart. -/
theorem checkout_address_before_cart_witness :
    (createOrder db8 (some ⟨1, UserRole.CUSTOMER⟩) (some 7)).1 = CheckoutResult.invalidAddress
    ∧ (createOrder db8b (some ⟨1, UserRole.CUSTOMER⟩) (some 7)).1 = CheckoutResult.emptyCart := by
  have h1 := (checkout_address_before_cart db8 ⟨1, UserRole.CUSTOMER⟩ 7).1 (by decide)
  have h2 := (checkout_address_before_cart db8b ⟨1, UserRole.CUSTOMER⟩ 7).2 ⟨7, 1⟩ (by decide)
      (Or.inl (by decide))
  exact ⟨h1, h2⟩

/-- C9 counterexample: in dbW9 cart line 10 belongs to user 2; user 1 is
rejected with HTTP 401, not the 403 the claim names, on both the quantity
update and the delete, with the store unchanged. -/
theorem cart_item_ownership_cex :
    (updateCartItem dbW9 (some ⟨1, UserRole.CUSTOMER⟩) 10 (some 1)).1.status = 401
    ∧ (updateCartItem dbW9 (some ⟨1, UserRole.CUSTOMER⟩) 10 (some 1)).1.status ≠ 403
    ∧ (updateCartItem dbW9 (some ⟨1, UserRole.CUSTOMER⟩) 10 (some 1)).2 = dbW9
    ∧ (deleteCartItem dbW9 (some ⟨1, UserRole.CUSTOMER⟩) 10).1.status = 401
    ∧ (deleteCartItem dbW9 (some ⟨1, UserRole.CUSTOMER⟩) 10).1.status ≠ 403
    ∧ (deleteCartItem dbW9 (some ⟨1, UserRole.CUSTOMER⟩) 10).2 = dbW9 := by
  decide

/-- C9 amended: mutating an existing cart line of a cart that does not
belong to the caller is rejected before any write, but with HTTP 401
(the same code as unauthenticated) rather than 403, and the store is left
unchanged by both PATCH and DELETE. -/
theorem cart_item_ownership_unauthorized (db : DB) (s : Session) (itemId : Nat) (q : Int)
    (ci : CartItem) (cart : Cart)
    (hq : 1 ≤ q)
    (hItem : db.cartItems.find? (fun x => x.id == itemId) = some ci)
    (hCart : db.carts.find? (fun c => c.id == ci.cartId) = some cart)
    (hOwn : cart.userId ≠ s.userId) :
    (updateCartItem db (some s) itemId (some q)).1 = CartItemResult.notOwner
    ∧ (updateCartItem db (some s) itemId (some q)).1.status = 401
    ∧ (updateCartItem db (some s) itemId (some q)).2 = db
    ∧ (deleteCartItem db (some s) itemId).1 = CartItemResult.notOwner
    ∧ (deleteCartItem db (some s) itemId).1.status = 401
    ∧ (deleteCartItem db (some s) itemId).2 = db := by
  have hql : ¬ (q < 1) := by omega
  have hres1 : updateCartItem db (some s) itemId (some q) = (CartItemResult.notOwner, db) := by
    unfold updateCartItem
    simp [hql, hItem, hCart, hOwn]
  have hres2 : deleteCartItem db (some s) itemId = (CartItemResult.notOwner, db) := by
    unfold deleteCartItem
    simp [hItem, hCart, hOwn]
  exact ⟨by rw [hres1], by rw [hres1]; rfl, by rw [hres1],
    by rw [hres2], by rw [hres2]; rfl, by rw [hres2]⟩

/-- C9 witness: user 1 attacks line 10 of the cart of user 2 in dbW9. -/
theorem cart_item_ownership_unauthorized_witness :
    (updateCartItem dbW9 (some ⟨1, UserRole.CUSTOMER⟩) 10 (some 1)).1 = CartItemResult.notOwner
    ∧ (updateCartItem dbW9 (some ⟨1, UserRole.CUSTOMER⟩) 10 (some 1)).2 = dbW9
    ∧ (deleteCartItem dbW9 (some ⟨1, UserRole.CUSTOMER⟩) 10).1 = CartItemResult.notOwner
    ∧ (deleteCartItem dbW9 (some ⟨1, UserRole.CUSTOMER⟩) 10).2 = dbW9 := by
  have h := cart_item_ownership_unauthorized dbW9 ⟨1, UserRole.CUSTOMER⟩ 10 1 ⟨10, 1, 1, 1⟩ ⟨1, 2⟩
      (by decide) (by decide) (by decide) (by decide)
  exact ⟨h.1, h.2.2.1, h.2.2.2.1, h.2.2.2.2.2⟩

/-- C10: a review submission by a CUSTOMER with a rating in range but a
productId matching no product is answered 404 product-not-found with the
store unchanged, whatever the order history says, so the check runs before
the purchase-eligibility lookup. -/
theorem review_missing_product_not_found (db : DB) (s : Session) (pid : Nat) (rating : Int)
    (comment : Option String)
    (hrole : s.role = UserRole.CUSTOMER)
    (h1 : 1 ≤ rating) (h5 : rating ≤ 5)
    (hnone : findProduct db.products pid = none) :
    (createReview db (some s) (some pid) rating comment).1 = ReviewResult.productNotFound
    ∧ (createReview db (some s) (some pid) rating comment).1.status = 404
    ∧ (createReview db (some s) (some pid) rating comment).2 = db := by
  have hcond : ¬(rating = 0 ∨ rating < 1 ∨ 5 < rating) := by omega
  have hres : createReview db (some s) (some pid) rating comment
      = (ReviewResult.productNotFound, db) := by
    unfold createReview
    simp [hrole, hcond, hnone]
  exact ⟨by rw [hres], by rw [hres]; rfl, by rw [hres]⟩

/-- C10 witness: in dbW10 user 1 even has a DELIVERED order containing
product id 9, yet the submission is answered 404 because no product row 9
exists; eligibility is never consulted. -/
theorem review_missing_product_not_found_witness :
    hasPurchased dbW10 1 9 = true
    ∧ (createReview dbW10 (some ⟨1, UserRole.CUSTOMER⟩) (some 9) 5 none).1
        = ReviewResult.productNotFound
    ∧ (createReview dbW10 (some ⟨1, UserRole.CUSTOMER⟩) (some 9) 5 none).1.status = 404
    ∧ (createReview dbW10 (some ⟨1, UserRole.CUSTOMER⟩) (some 9) 5 none).2 = dbW10 := by
  have h := review_missing_product_not_found dbW10 ⟨1, UserRole.CUSTOMER⟩ 9 5 none rfl
      (by decide) (by decide) (by decide)
  exact ⟨by decide, h.1, h.2.1, h.2.2⟩
